import Mathlib

/-!
Shallow embedding of the quiz-extraction bot in `src/simple.py`.

The program fetches a multi-language quiz payload from a remote API,
extracts the canonical English (`"843"`) question set, inlines every
referenced image as a base64 data URI, and renders a self-contained HTML
answer key.

Network I/O is modelled by explicit environments: the image fetcher is a
function `String → Option HttpImage` (`none` models any network error,
timeout, or non-success status — all of which surface as exceptions from
`requests.get`/`raise_for_status` in the source), and the two JSON API
calls are modelled by an `Except FetchErr Json` response value.  HTML
parsing and serialisation (BeautifulSoup) are opaque external functions,
passed as parameters `P` (parse) and `S` (serialise); the node tree they
exchange is `HtmlNode`.  Python exceptions inside modelled code are
`Option`/`none`.
-/

/-- JSON values as produced by `response.json()`.  Numbers are modelled as
integers (the payloads consumed here carry no fractional numbers). -/
inductive Json where
  | null
  | bool (b : Bool)
  | num (n : Int)
  | str (s : String)
  | arr (elems : List Json)
  | obj (fields : List (String × Json))

/-- First value stored under key `k`, as in a Python `dict` lookup (a parsed
JSON object has unique keys, so first-match is exact). -/
def jlookup (fields : List (String × Json)) (k : String) : Option Json :=
  fields.lookup k

/-- Python `str.startswith`: prefix test on the character sequence. -/
def pyStartsWith (s p : String) : Bool := p.data.isPrefixOf s.data

/-- Python truthiness of a JSON value (`if not x`). -/
def pyFalsy : Json → Bool
  | Json.null => true
  | Json.bool b => !b
  | Json.num n => n == 0
  | Json.str s => s == ""
  | Json.arr xs => xs.isEmpty
  | Json.obj fields => fields.isEmpty

/-- Python membership test `needle in container` for a string needle against
a JSON value: list membership (string equality with elements), dict key
membership, or substring test; a number, boolean or `None` container raises
`TypeError`, modelled as `none`. -/
def pyIn (needle : String) : Json → Option Bool
  | Json.arr xs => some (xs.any fun j => match j with
      | Json.str s => s == needle
      | _ => false)
  | Json.obj fields => some (jlookup fields needle).isSome
  | Json.str s => some (decide (needle.data <:+: s.data))
  | Json.num _ => none
  | Json.bool _ => none
  | Json.null => none

/-! ### Base64 (Python `base64.b64encode`) -/

/-- Standard base64 alphabet, as used by `base64.b64encode`. -/
def b64Alphabet : List Char :=
  "ABCDEFGHIJKLMNOPQRSTUVWXYZabcdefghijklmnopqrstuvwxyz0123456789+/".toList

/-- Character encoding a 6-bit group. -/
def b64Char (n : Nat) : Char := b64Alphabet.getD n (Char.ofNat 65)

/-- Index of a base64 character in the alphabet (`none` for a non-alphabet
character such as the pad `=`). -/
def b64Val (c : Char) : Option Nat := b64Alphabet.findIdx? (fun d => d == c)

/-- Pad character `=`. -/
def b64Pad : Char := Char.ofNat 61

/-- Base64-encode a byte sequence, three bytes to four characters, with
`=` padding exactly as `base64.b64encode` produces it. -/
def b64EncodeChunks : List Nat → List Char
  | [] => []
  | [a] => [b64Char (a / 4), b64Char (a % 4 * 16), b64Pad, b64Pad]
  | [a, b] => [b64Char (a / 4), b64Char (a % 4 * 16 + b / 16), b64Char (b % 16 * 4), b64Pad]
  | a :: b :: c :: rest =>
      b64Char (a / 4) :: b64Char (a % 4 * 16 + b / 16) ::
      b64Char (b % 16 * 4 + c / 64) :: b64Char (c % 64) :: b64EncodeChunks rest

/-- Base64 encoding as a string, the exact text `base64.b64encode(...).decode("utf-8")`
yields. -/
def b64Encode (bytes : List Nat) : String := String.mk (b64EncodeChunks bytes)

/-- Strict base64 decoder: four characters to three bytes, accepting `=`
padding only at the very end and only with zeroed spare bits.  Used to state
that the encoded text decodes back to the fetched bytes. -/
def b64DecodeChunks : List Char → Option (List Nat)
  | [] => some []
  | c1 :: c2 :: c3 :: c4 :: rest =>
      match b64Val c1, b64Val c2 with
      | some v1, some v2 =>
        if c3 == b64Pad then
          if c4 == b64Pad && rest.isEmpty && v2 % 16 == 0 then
            some [v1 * 4 + v2 / 16]
          else none
        else
          match b64Val c3 with
          | some v3 =>
            if c4 == b64Pad then
              if rest.isEmpty && v3 % 4 == 0 then
                some [v1 * 4 + v2 / 16, v2 % 16 * 16 + v3 / 4]
              else none
            else
              match b64Val c4, b64DecodeChunks rest with
              | some v4, some tail =>
                  some ((v1 * 4 + v2 / 16) :: (v2 % 16 * 16 + v3 / 4) :: (v3 % 4 * 64 + v4) :: tail)
              | _, _ => none
          | none => none
      | _, _ => none
  | _ => none

/-- String-level base64 decoder. -/
def b64Decode (s : String) : Option (List Nat) := b64DecodeChunks s.data

/-! ### Asset inliner (`download_and_encode_image`, src/simple.py:30-48) -/

/-- Successful HTTP image response: the body bytes (`response.content`) and
the optional `Content-Type` header. -/
structure HttpImage where
  content : List Nat
  contentType : Option String

/-- Image-fetch environment: `none` models any `requests` failure (network
error, timeout, or the exception `raise_for_status` throws on a non-success
status). -/
def FetchEnv : Type := String → Option HttpImage

/-- Translation of `download_and_encode_image`: on success build
`data:{content-type};base64,{encoded}` with `image/png` as the default
content type; on any failure return the input URL unchanged. -/
def download_and_encode_image (F : FetchEnv) (img_url : String) : String :=
  match F img_url with
  | some response =>
      let content_type := response.contentType.getD "image/png"
      "data:" ++ content_type ++ ";base64," ++ b64Encode response.content
  | none => img_url

/-! ### Content rewriter (`process_html_content`, src/simple.py:50-72) -/

/-- Parsed HTML fragment node (the BeautifulSoup tree restricted to the
node kinds the rewriter inspects: tags and text). -/
inductive HtmlNode where
  | text (s : String)
  | element (tag : String) (attrs : List (String × String)) (children : List HtmlNode)

/-- Attribute lookup, `img_tag.get(name)`. -/
def getAttr (attrs : List (String × String)) (k : String) : Option String :=
  attrs.lookup k

/-- Attribute assignment `img_tag[name] = v`: replace the value in place,
appending when the key is absent (a parsed tag has unique attribute keys). -/
def setAttr : List (String × String) → String → String → List (String × String)
  | [], k, v => [(k, v)]
  | (k', v') :: rest, k, v =>
      if k' == k then (k, v) :: rest else (k', v') :: setAttr rest k v

/-- Protocol normalisation from the loop body: a `//`-relative source gets
an `https:` prefix, anything else is left as is. -/
def fixProtocol (src : String) : String :=
  if pyStartsWith src "//" then "https:" ++ src else src

/-- Per-`img` step of the rewriting loop (src/simple.py:59-70): read `src`
(`None` or an empty value is skipped by `if src:`), normalise the protocol,
and replace the attribute with the inliner result when the normalised value
is an http(s) URL. -/
def srcStep (F : FetchEnv) (attrs : List (String × String)) : List (String × String) :=
  match getAttr attrs "src" with
  | none => attrs
  | some src =>
      if src == "" then attrs
      else
        let src := fixProtocol src
        if pyStartsWith src "http://" || pyStartsWith src "https://" then
          setAttr attrs "src" (download_and_encode_image F src)
        else attrs

mutual

/-- Rewrite one node: `soup.find_all("img")` touches every `img` tag in the
tree and mutates only its `src` attribute; everything else is preserved. -/
def processNode (F : FetchEnv) : HtmlNode → HtmlNode
  | HtmlNode.text s => HtmlNode.text s
  | HtmlNode.element tag attrs children =>
      HtmlNode.element tag (if tag == "img" then srcStep F attrs else attrs)
        (processForest F children)

/-- Rewrite a list of sibling nodes in document order. -/
def processForest (F : FetchEnv) : List HtmlNode → List HtmlNode
  | [] => []
  | n :: ns => processNode F n :: processForest F ns

end

/-- Translation of `process_html_content`: an empty string returns `""`
before any parser is invoked; otherwise parse (`P`), rewrite every image,
and serialise (`S`). -/
def process_html_content (P : String → List HtmlNode) (S : List HtmlNode → String)
    (F : FetchEnv) (html_string : String) : String :=
  if html_string == "" then ""
  else S (processForest F (P html_string))

/-! ### Quiz extractor (`fetch_locale_json_from_api`, src/simple.py:74-130) -/

/-- Failure of an API request before a JSON value is available: a network
error or timeout (`requests.exceptions.RequestException`), the exception
`raise_for_status` throws on a non-success status, or a non-JSON body
(`json.JSONDecodeError`).  All three handlers in the source return the same
fallback, so the constructors are interchangeable for the theorems. -/
inductive FetchErr where
  | networkError
  | badStatus
  | jsonDecodeError

/-- One extracted question, the dict
`{"body": ..., "alternatives": ...}` the source appends.  `alternatives`
holds the elements of the JSON array (validation guarantees the field is an
array before a record is built). -/
structure QuestionRecord where
  body : Json
  alternatives : List Json

/-- Translation of the inner predicate `is_valid_question_object`: the value
is a dict containing a `body` key and an `alternatives` key whose value is a
list. -/
def is_valid_question_object (data_obj : Option Json) : Bool :=
  match data_obj with
  | some (Json.obj fields) =>
      (jlookup fields "body").isSome &&
      (match jlookup fields "alternatives" with
       | some (Json.arr _) => true
       | _ => false)
  | _ => false

/-- The guard on src/simple.py:99-102:
`"843" in english_version.get("language", []) or
"English" in english_version.get("language_names", [])`, with Python
short-circuit `or` and a `TypeError` (modelled `none`) when a consulted
container is a number, boolean or `None`. -/
def markerCheck (fields : List (String × Json)) : Option Bool :=
  match pyIn "843" ((jlookup fields "language").getD (Json.arr [])) with
  | none => none
  | some true => some true
  | some false => pyIn "English" ((jlookup fields "language_names").getD (Json.arr []))

/-- The record built on src/simple.py:103-106 from a validated `"843"`
object: `english_version.get("body", "")` and
`english_version.get("alternatives", [])` (validation guarantees the latter
is an array; the non-array branch is unreachable). -/
def extractRecord (fields : List (String × Json)) : QuestionRecord :=
  { body := (jlookup fields "body").getD (Json.str "")
  , alternatives :=
      match jlookup fields "alternatives" with
      | some (Json.arr xs) => xs
      | _ => [] }

/-- The extraction loop over the top-level entries (src/simple.py:94-113).
A `TypeError` raised by the language-membership test escapes to the generic
`except Exception` handler, which discards every partial result and returns
`None`; that is the `none` outcome here. -/
def processEntries : List (String × Json) → Option (List QuestionRecord)
  | [] => some []
  | (_, v) :: rest =>
      match v with
      | Json.obj question_data_by_language =>
          match jlookup question_data_by_language "843" with
          | some (Json.obj fields) =>
              if is_valid_question_object (some (Json.obj fields)) then
                match markerCheck fields with
                | none => none
                | some true =>
                    (processEntries rest).map (fun tail => extractRecord fields :: tail)
                | some false => processEntries rest
              else processEntries rest
          | _ => processEntries rest
      | _ => processEntries rest

/-- Translation of `fetch_locale_json_from_api` over a modelled API
response: any request/decode failure returns `None`; a JSON body that is not
a dict returns `None` (src/simple.py:114-116); otherwise the entries are
processed in iteration order.  An empty result list is returned as-is
(src/simple.py:118-121 only logs). -/
def fetch_locale_json_from_api (resp : Except FetchErr Json) : Option (List QuestionRecord) :=
  match resp with
  | Except.error _ => none
  | Except.ok raw_data =>
      match raw_data with
      | Json.obj entries => processEntries entries
      | _ => none

/-! ### Metadata fetcher (`fetch_test_title_and_description`, src/simple.py:132-155) -/

/-- Python `str.strip()` on a JSON value: defined for strings only; calling
it on anything else raises `AttributeError` (modelled `none`), which the
source converts to the default pair.  `String.trim` strips the same ASCII
whitespace `strip()` does on this data. -/
def pyStrip : Json → Option String
  | Json.str s => some s.trim
  | _ => none

/-- Translation of `fetch_test_title_and_description`: every failure path
(network, status, JSON decode, a payload that is not a non-empty list, a
first element that is not a dict, or a non-string `title`/`description`
value) yields the default `("Test {nid}", "")`; otherwise the stripped
title and description of the first element, with the same defaults for
absent keys. -/
def fetch_test_title_and_description (nid : String) (resp : Except FetchErr Json) :
    String × String :=
  match resp with
  | Except.error _ => (s!"Test {nid}", "")
  | Except.ok data =>
      match data with
      | Json.arr (item :: _) =>
          (match item with
           | Json.obj fields =>
               match pyStrip ((jlookup fields "title").getD (Json.str s!"Test {nid}")),
                     pyStrip ((jlookup fields "description").getD (Json.str "")) with
               | some title, some description => (title, description)
               | _, _ => (s!"Test {nid}", "")
           | _ => (s!"Test {nid}", ""))
      | _ => (s!"Test {nid}", "")

/-! ### Document renderer (`generate_html_with_answers`, src/simple.py:157-312) -/

/-- Python `str(x) == "1"` for the optional raw `score_if_chosen` value
(src/simple.py:293).  `str(None)` is `"None"`, `str` of a boolean is
`"True"`/`"False"`, `str` of an integer `1` is `"1"`, and `str` of a list
or dict begins with a bracket, so only the string `"1"` and the number `1`
compare equal to `"1"`. -/
def pyStrIsOne : Option Json → Bool
  | none => false
  | some Json.null => false
  | some (Json.bool _) => false
  | some (Json.num n) => n == 1
  | some (Json.str s) => s == "1"
  | some (Json.arr _) => false
  | some (Json.obj _) => false

/-- Passing a JSON value to `process_html_content`: a falsy value takes the
`if not html_string: return ""` early exit, a non-empty string is parsed,
and a truthy non-string reaches BeautifulSoup and raises (modelled
`none`). -/
def pyHtmlArg : Json → Option String
  | v => if pyFalsy v then some "" else
      match v with
      | Json.str s => some s
      | _ => none

/-- Option labels (src/simple.py:288). -/
def labels : List String := ["A", "B", "C", "D"]

/-- One rendered answer row: the data interpolated into the option
template on src/simple.py:296-301. -/
structure RenderedOption where
  label : String
  row_class : String
  option_html : String

/-- One rendered question block: the data interpolated into the question
template on src/simple.py:280-284. -/
structure RenderedQuestion where
  number : Nat
  question_html : String
  options : List RenderedOption

/-- Body of the option loop (src/simple.py:290-301) for one alternative:
`opt.get` raises on a non-dict, `opt["answer"]` raises `KeyError` when the
key is absent, and the answer value goes through `process_html_content`. -/
def renderOption (P : String → List HtmlNode) (S : List HtmlNode → String) (F : FetchEnv)
    (opt_idx : Nat) (opt : Json) : Option RenderedOption :=
  match opt with
  | Json.obj fields =>
      let label := labels.getD opt_idx ""
      let is_correct := pyStrIsOne (jlookup fields "score_if_chosen")
      let row_class := if is_correct then "answer-row correct" else "answer-row"
      (match jlookup fields "answer" with
       | none => none
       | some a =>
           match pyHtmlArg a with
           | none => none
           | some answer => some ⟨label, row_class, process_html_content P S F answer⟩)
  | _ => none

/-- The option loop with its `opt_idx < len(labels)` guard, over the
already-truncated alternatives. -/
def renderOptions (P : String → List HtmlNode) (S : List HtmlNode → String) (F : FetchEnv) :
    Nat → List Json → Option (List RenderedOption)
  | _, [] => some []
  | opt_idx, opt :: rest =>
      if opt_idx < labels.length then
        match renderOption P S F opt_idx opt with
        | none => none
        | some r => (renderOptions P S F (opt_idx + 1) rest).map (fun tail => r :: tail)
      else renderOptions P S F (opt_idx + 1) rest

/-- Body of the question loop (src/simple.py:277-305) for one question:
process the body, truncate the alternatives to the first four, and render
them. -/
def renderQuestion (P : String → List HtmlNode) (S : List HtmlNode → String) (F : FetchEnv)
    (idx : Nat) (q : QuestionRecord) : Option RenderedQuestion :=
  match pyHtmlArg q.body with
  | none => none
  | some body =>
      (renderOptions P S F 0 (q.alternatives.take 4)).map
        (fun opts => ⟨idx, process_html_content P S F body, opts⟩)

/-- The question loop `for idx, q in enumerate(data, 1)`. -/
def renderQuestions (P : String → List HtmlNode) (S : List HtmlNode → String) (F : FetchEnv) :
    Nat → List QuestionRecord → Option (List RenderedQuestion)
  | _, [] => some []
  | idx, q :: rest =>
      match renderQuestion P S F idx q with
      | none => none
      | some b => (renderQuestions P S F (idx + 1) rest).map (fun bs => b :: bs)

/-- Single-quote character, used verbatim inside the HTML templates. -/
def squote : String := String.mk [Char.ofNat 39]

/-- Static document head (src/simple.py:159-275): doctype, meta charset,
title and the embedded stylesheet, ending with the opening `<body>` tag.
Brace characters of the CSS are written as their escapes. -/
def htmlHeader : String :=
  "\n<!DOCTYPE html>\n<html>\n<head>\n<meta charset=" ++ squote ++ "UTF-8" ++ squote ++ ">" ++
  "\n<title>Question Paper</title>
<style>
    * \x7b
        margin: 0;
        padding: 0;
        box-sizing: border-box;
    \x7d
    
    body \x7b
        font-family: Arial, sans-serif;
        background: #ffffff;
        color: #000000;
        padding: 40px;
        line-height: 1.6;
        max-width: 900px;
        margin: 0 auto;
    \x7d
    
    .question-block \x7b
        margin-bottom: 40px;
        padding: 30px;
        border: 2px solid #000000;
        background: #ffffff;
        page-break-inside: avoid;
    \x7d
    
    .question-number \x7b
        font-size: 18px;
        font-weight: bold;
        margin-bottom: 15px;
        color: #000000;
    \x7d
    
    .question-text \x7b
        font-size: 16px;
        margin-bottom: 20px;
        color: #000000;
        line-height: 1.8;
    \x7d
    
    .question-text img \x7b
        max-width: 100%;
        height: auto;
        display: block;
        margin: 15px 0;
    \x7d
    
    .answer-row \x7b
        padding: 15px;
        margin-bottom: 10px;
        border: 1px solid #000000;
        background: #ffffff;
        display: flex;
        align-items: center;
        gap: 15px;
        page-break-inside: avoid;
    \x7d
    
    .answer-row.correct \x7b
        background: #e0e0e0;
        border: 2px solid #000000;
        font-weight: bold;
    \x7d
    
    .option-letter \x7b
        display: inline-block;
        width: 35px;
        height: 35px;
        background: #000000;
        color: #ffffff;
        text-align: center;
        line-height: 35px;
        font-weight: bold;
        border-radius: 50%;
        flex-shrink: 0;
    \x7d
    
    .answer-row.correct .option-letter \x7b
        background: #000000;
        color: #ffffff;
    \x7d
    
    .option-text \x7b
        font-size: 15px;
        color: #000000;
        flex: 1;
    \x7d
    
    .option-text img \x7b
        max-width: 100%;
        height: auto;
        display: block;
        margin: 10px 0;
    \x7d
    
    @media print \x7b
        body \x7b
            padding: 20px;
        \x7d
        
        .question-block \x7b
            page-break-inside: avoid;
        \x7d
        
        .answer-row \x7b
            page-break-inside: avoid;
        \x7d
    \x7d
</style>
</head>
<body>
    "

/-- Closing fragment appended after the question loop
(src/simple.py:307-310). -/
def htmlFooter : String := "\n</body>\n</html>\n    "

/-- Serialisation of one answer row (src/simple.py:296-301). -/
def optionRowHtml (o : RenderedOption) : String :=
  "\n        <div class=" ++ squote ++ o.row_class ++ squote ++ ">" ++
  "\n            <span class=" ++ squote ++ "option-letter" ++ squote ++ ">" ++ o.label ++ "</span>" ++
  "\n            <span class=" ++ squote ++ "option-text" ++ squote ++ ">" ++ o.option_html ++ "</span>" ++
  "\n        </div>\n                "

/-- Serialisation of one question block (src/simple.py:280-305). -/
def questionBlockHtml (b : RenderedQuestion) : String :=
  "\n    <div class=" ++ squote ++ "question-block" ++ squote ++ ">" ++
  "\n        <div class=" ++ squote ++ "question-number" ++ squote ++ ">Question " ++
  toString b.number ++ "</div>" ++
  "\n        <div class=" ++ squote ++ "question-text" ++ squote ++ ">" ++ b.question_html ++ "</div>" ++
  "\n        " ++ String.join (b.options.map optionRowHtml) ++ "\n    </div>\n        "

/-- Translation of `generate_html_with_answers`: the static head, one block
per question in input order numbered from 1, and the closing fragment.  The
`test_title` and `syllabus` parameters are accepted and, as in the source,
never interpolated into the document.  The `none` outcome models an
exception escaping the loop (a malformed question or alternative). -/
def generate_html_with_answers (P : String → List HtmlNode) (S : List HtmlNode → String)
    (F : FetchEnv) (data : List QuestionRecord) (test_title syllabus : String) :
    Option String :=
  (renderQuestions P S F 1 data).map (fun blocks =>
    htmlHeader ++ String.join (blocks.map questionBlockHtml) ++ htmlFooter)

/-! ### Specification-side predicates

Definitions below are not translations of source functions; they name the
conditions the claims quantify over, for use in the theorem statements. -/

/-- Entry on which the extraction loop raises `TypeError`: the `"843"`
object is valid, but the short-circuit language-marker test consults a
container of membership-incompatible type (number, boolean or `None`). -/
def entryMarkerError (kv : String × Json) : Bool :=
  match kv.2 with
  | Json.obj byLang =>
      match jlookup byLang "843" with
      | some (Json.obj fields) =>
          is_valid_question_object (some (Json.obj fields)) && (markerCheck fields).isNone
      | _ => false
  | _ => false

/-- Selection function of the amended C1: an entry contributes a record
exactly when its `"843"` object is valid and carries the English marker
(`"843"` among `language` or `"English"` among `language_names`). -/
def selectEnglish (kv : String × Json) : Option QuestionRecord :=
  match kv.2 with
  | Json.obj byLang =>
      match jlookup byLang "843" with
      | some (Json.obj fields) =>
          if is_valid_question_object (some (Json.obj fields)) &&
             (markerCheck fields).getD false then
            some (extractRecord fields)
          else none
      | _ => none
  | _ => none

/-- Hard-failure condition of the amended C2: a request/decode failure, a
top-level payload that is not a mapping, or a mapping containing an entry
on which the language-marker test raises `TypeError`. -/
def respFailCase : Except FetchErr Json → Bool
  | Except.error _ => true
  | Except.ok (Json.obj entries) => entries.any entryMarkerError
  | Except.ok _ => true

/-- Payload that is a non-empty JSON list (the shape the metadata fetcher
consumes). -/
def isNonEmptyList : Json → Bool
  | Json.arr (_ :: _) => true
  | _ => false

/-- Field access on a JSON value that may not be an object, for stating the
correct-marking condition. -/
def jgetOpt (v : Json) (k : String) : Option Json :=
  match v with
  | Json.obj fields => jlookup fields k
  | _ => none

/-- Alternative the renderer can process without raising: a dict whose
`answer` value can be handed to `process_html_content`. -/
def wfAlt : Json → Bool
  | Json.obj fields =>
      (match jlookup fields "answer" with
       | some a => (pyHtmlArg a).isSome
       | none => false)
  | _ => false

/-- Question the renderer can process without raising. -/
def wfQuestion (q : QuestionRecord) : Bool :=
  (pyHtmlArg q.body).isSome && (q.alternatives.take 4).all wfAlt

/-- Question list the renderer can process without raising. -/
def wfQuestions (data : List QuestionRecord) : Bool := data.all wfQuestion

mutual

/-- Whether a node contains an `img` element. -/
def hasImgNode : HtmlNode → Bool
  | HtmlNode.text _ => false
  | HtmlNode.element tag _ children => tag == "img" || hasImgForest children

/-- Whether any node of a forest contains an `img` element. -/
def hasImgForest : List HtmlNode → Bool
  | [] => false
  | n :: ns => hasImgNode n || hasImgForest ns

end

/-- Attribute list with the `src` entry removed. -/
def stripSrc (attrs : List (String × String)) : List (String × String) :=
  attrs.filter (fun kv => !(kv.1 == "src"))

mutual

/-- Node with the `src` attribute of every `img` element removed: the part
of a fragment the rewriter must preserve. -/
def stripNode : HtmlNode → HtmlNode
  | HtmlNode.text s => HtmlNode.text s
  | HtmlNode.element tag attrs children =>
      HtmlNode.element tag (if tag == "img" then stripSrc attrs else attrs)
        (stripForest children)

/-- Forest with the `src` attribute of every `img` element removed. -/
def stripForest : List HtmlNode → List HtmlNode
  | [] => []
  | n :: ns => stripNode n :: stripForest ns

end

/-! ### Helper lemmas -/

/-- Prefixing `https:` onto a protocol-relative URL yields an `https://`
URL. -/
theorem pyStartsWith_https_append (s : String) (h : pyStartsWith s "//" = true) :
    pyStartsWith ("https:" ++ s) "https://" = true := by
  simp only [pyStartsWith, String.data_append] at h ⊢
  simpa [List.isPrefixOf] using h

/-- A protocol-relative URL is not the empty string. -/
theorem pyStartsWith_slashslash_ne_empty (s : String) (h : pyStartsWith s "//" = true) :
    (s == "") = false := by
  rcases s with ⟨l⟩
  cases l with
  | nil => simp [pyStartsWith, List.isPrefixOf] at h
  | cons c cs =>
      apply beq_eq_false_iff_ne.mpr
      intro hcontra
      have hdata : (String.mk (c :: cs)).data = "".data := by rw [hcontra]
      simp at hdata

/-- Replacing the `src` value does not change the other attributes. -/
theorem stripSrc_setAttr (attrs : List (String × String)) (v : String) :
    stripSrc (setAttr attrs "src" v) = stripSrc attrs := by
  induction attrs with
  | nil => simp [setAttr, stripSrc]
  | cons kv rest ih =>
      obtain ⟨k', v'⟩ := kv
      by_cases h : (k' == "src") = true
      · simp [setAttr, h, stripSrc, List.filter_cons]
      · simp only [Bool.not_eq_true] at h
        simp only [stripSrc] at ih
        simp [setAttr, h, stripSrc, List.filter_cons, ih]

/-- The per-image step only rewrites the `src` attribute. -/
theorem stripSrc_srcStep (F : FetchEnv) (attrs : List (String × String)) :
    stripSrc (srcStep F attrs) = stripSrc attrs := by
  unfold srcStep
  cases h : getAttr attrs "src" with
  | none => rfl
  | some src =>
      by_cases he : (src == "") = true
      · simp [he]
      · simp only [he, Bool.false_eq_true, if_false, eq_self_iff_true]
        split
        · exact stripSrc_setAttr attrs _
        · rfl

mutual

/-- Rewriting preserves a node up to `img` `src` attributes. -/
theorem stripNode_processNode (F : FetchEnv) :
    ∀ n : HtmlNode, stripNode (processNode F n) = stripNode n
  | HtmlNode.text _ => rfl
  | HtmlNode.element tag attrs children => by
      by_cases h : (tag == "img") = true
      · simp [processNode, stripNode, h, stripSrc_srcStep,
          stripForest_processForest F children]
      · simp only [Bool.not_eq_true] at h
        simp [processNode, stripNode, h, stripForest_processForest F children]

/-- Rewriting preserves a forest up to `img` `src` attributes. -/
theorem stripForest_processForest (F : FetchEnv) :
    ∀ f : List HtmlNode, stripForest (processForest F f) = stripForest f
  | [] => rfl
  | n :: ns => by
      simp [processForest, stripForest, stripNode_processNode F n,
        stripForest_processForest F ns]

end

mutual

/-- A node without `img` elements is rewritten to itself. -/
theorem processNode_of_no_img (F : FetchEnv) :
    ∀ n : HtmlNode, hasImgNode n = false → processNode F n = n
  | HtmlNode.text _, _ => rfl
  | HtmlNode.element tag attrs children, h => by
      simp only [hasImgNode, Bool.or_eq_false_iff] at h
      simp [processNode, h.1, processForest_of_no_img F children h.2]

/-- A forest without `img` elements is rewritten to itself. -/
theorem processForest_of_no_img (F : FetchEnv) :
    ∀ f : List HtmlNode, hasImgForest f = false → processForest F f = f
  | [], _ => rfl
  | n :: ns, h => by
      simp only [hasImgForest, Bool.or_eq_false_iff] at h
      simp [processForest, processNode_of_no_img F n h.1,
        processForest_of_no_img F ns h.2]

end

/-- Decoding inverts encoding on each alphabet index. -/
theorem b64Val_b64Char (n : Nat) (h : n < 64) : b64Val (b64Char n) = some n := by
  have H : ∀ i : Fin 64, b64Val (b64Char i.val) = some i.val := by decide
  exact H ⟨n, h⟩

/-- No alphabet character is the pad character. -/
theorem b64Char_ne_pad (n : Nat) (h : n < 64) : (b64Char n == b64Pad) = false := by
  have H : ∀ i : Fin 64, (b64Char i.val == b64Pad) = false := by decide
  exact H ⟨n, h⟩

/-- Round trip: the strict decoder recovers exactly the bytes that were
encoded, for any byte sequence. -/
theorem b64DecodeChunks_b64EncodeChunks :
    ∀ l : List Nat, (∀ x ∈ l, x < 256) → b64DecodeChunks (b64EncodeChunks l) = some l := by
  intro l
  induction l using b64EncodeChunks.induct with
  | case1 => intro _; rfl
  | case2 a =>
      intro h
      have ha : a < 256 := h a (by simp)
      have h1 : a / 4 < 64 := by omega
      have h2 : a % 4 * 16 < 64 := by omega
      simp only [b64EncodeChunks, b64DecodeChunks, b64Val_b64Char _ h1, b64Val_b64Char _ h2]
      have hpad : (b64Pad == b64Pad) = true := by decide
      simp only [hpad, if_true, List.isEmpty_nil, Bool.and_true, Bool.true_and]
      have hm : (a % 4 * 16 % 16 == 0) = true := by simp
      simp only [hm, if_true, Option.some.injEq, List.cons.injEq, and_true]
      omega
  | case3 a b =>
      intro h
      have ha : a < 256 := h a (by simp)
      have hb : b < 256 := h b (by simp)
      have h1 : a / 4 < 64 := by omega
      have h2 : a % 4 * 16 + b / 16 < 64 := by omega
      have h3 : b % 16 * 4 < 64 := by omega
      simp only [b64EncodeChunks, b64DecodeChunks, b64Val_b64Char _ h1, b64Val_b64Char _ h2,
        b64Val_b64Char _ h3, b64Char_ne_pad _ h3]
      have hpad : (b64Pad == b64Pad) = true := by decide
      simp only [hpad, if_true, Bool.false_eq_true, if_false, List.isEmpty_nil, Bool.true_and]
      have hm : (b % 16 * 4 % 4 == 0) = true := by simp
      simp only [hm, if_true, Option.some.injEq, List.cons.injEq, and_true]
      constructor
      · omega
      · omega
  | case4 a b c rest ih =>
      intro h
      have ha : a < 256 := h a (by simp)
      have hb : b < 256 := h b (by simp)
      have hc : c < 256 := h c (by simp)
      have h1 : a / 4 < 64 := by omega
      have h2 : a % 4 * 16 + b / 16 < 64 := by omega
      have h3 : b % 16 * 4 + c / 64 < 64 := by omega
      have h4 : c % 64 < 64 := by omega
      have hrest : ∀ x ∈ rest, x < 256 := fun x hx => h x (by simp [hx])
      simp only [b64EncodeChunks, b64DecodeChunks, b64Val_b64Char _ h1, b64Val_b64Char _ h2,
        b64Val_b64Char _ h3, b64Val_b64Char _ h4, b64Char_ne_pad _ h3, b64Char_ne_pad _ h4,
        Bool.false_eq_true, if_false, ih hrest, Option.some.injEq, List.cons.injEq]
      refine ⟨by omega, by omega, by omega, trivial⟩

/-- The extraction loop fails (models the uncaught `TypeError`) exactly when
some entry has a valid `"843"` object whose language-marker test consults a
membership-incompatible container. -/
theorem processEntries_eq_none_iff :
    ∀ entries : List (String × Json),
      (processEntries entries = none ↔ entries.any entryMarkerError = true)
  | [] => by simp [processEntries]
  | (k, v) :: rest => by
      have ih := processEntries_eq_none_iff rest
      cases v with
      | null => simpa [processEntries, entryMarkerError] using ih
      | bool b => simpa [processEntries, entryMarkerError] using ih
      | num n => simpa [processEntries, entryMarkerError] using ih
      | str s => simpa [processEntries, entryMarkerError] using ih
      | arr xs => simpa [processEntries, entryMarkerError] using ih
      | obj byLang =>
          cases h843 : jlookup byLang "843" with
          | none => simpa [processEntries, entryMarkerError, h843] using ih
          | some ev =>
              cases ev with
              | null => simpa [processEntries, entryMarkerError, h843] using ih
              | bool b => simpa [processEntries, entryMarkerError, h843] using ih
              | num n => simpa [processEntries, entryMarkerError, h843] using ih
              | str s => simpa [processEntries, entryMarkerError, h843] using ih
              | arr xs => simpa [processEntries, entryMarkerError, h843] using ih
              | obj fields =>
                  by_cases hv : is_valid_question_object (some (Json.obj fields)) = true
                  · cases hm : markerCheck fields with
                    | none => simp [processEntries, entryMarkerError, h843, hm, hv]
                    | some b =>
                        cases b with
                        | true =>
                            cases hr : processEntries rest with
                            | none =>
                                have hra : rest.any entryMarkerError = true := ih.mp hr
                                simp [processEntries, entryMarkerError, h843, hm, hv, hr, hra]
                            | some tail =>
                                have hra : rest.any entryMarkerError = false := by
                                  cases hAny : rest.any entryMarkerError with
                                  | false => rfl
                                  | true => exact absurd (ih.mpr hAny) (by simp [hr])
                                simp [processEntries, entryMarkerError, h843, hm, hv, hr, hra]
                        | false => simpa [processEntries, entryMarkerError, h843, hm, hv] using ih
                  · have hv' : is_valid_question_object (some (Json.obj fields)) = false := by
                      simpa using hv
                    simpa [processEntries, entryMarkerError, h843, hv'] using ih

/-- When no entry trips the language-membership `TypeError`, the extraction
loop returns exactly the entries selected by `selectEnglish`, in order. -/
theorem processEntries_eq_filterMap :
    ∀ entries : List (String × Json),
      entries.all (fun kv => !entryMarkerError kv) = true →
      processEntries entries = some (entries.filterMap selectEnglish)
  | [], _ => by simp [processEntries]
  | (k, v) :: rest, h => by
      simp only [List.all_cons, Bool.and_eq_true, Bool.not_eq_true'] at h
      obtain ⟨hhead, htail⟩ := h
      have ih := processEntries_eq_filterMap rest (by simpa using htail)
      cases v with
      | null => simpa [processEntries, selectEnglish] using ih
      | bool b => simpa [processEntries, selectEnglish] using ih
      | num n => simpa [processEntries, selectEnglish] using ih
      | str s => simpa [processEntries, selectEnglish] using ih
      | arr xs => simpa [processEntries, selectEnglish] using ih
      | obj byLang =>
          cases h843 : jlookup byLang "843" with
          | none => simpa [processEntries, selectEnglish, h843] using ih
          | some ev =>
              cases ev with
              | null => simpa [processEntries, selectEnglish, h843] using ih
              | bool b => simpa [processEntries, selectEnglish, h843] using ih
              | num n => simpa [processEntries, selectEnglish, h843] using ih
              | str s => simpa [processEntries, selectEnglish, h843] using ih
              | arr xs => simpa [processEntries, selectEnglish, h843] using ih
              | obj fields =>
                  by_cases hv : is_valid_question_object (some (Json.obj fields)) = true
                  · cases hm : markerCheck fields with
                    | none =>
                        exfalso
                        simp [entryMarkerError, h843, hv, hm] at hhead
                    | some b =>
                        cases b with
                        | true => simp [processEntries, selectEnglish, h843, hv, hm, ih]
                        | false => simpa [processEntries, selectEnglish, h843, hv, hm] using ih
                  · have hv' : is_valid_question_object (some (Json.obj fields)) = false := by
                      simpa using hv
                    simpa [processEntries, selectEnglish, h843, hv'] using ih

/-- Dropping `i < 4` labels exposes the label at position `i`. -/
theorem labels_drop (i : Nat) (h : i < 4) :
    labels.drop i = labels.getD i "" :: labels.drop (i + 1) := by
  interval_cases i <;> rfl

/-- The option loop succeeds on well-formed alternatives and produces one
row per alternative, labelled positionally and marked correct exactly when
`str(score_if_chosen) == "1"`. -/
theorem renderOptions_of_wf (P : String → List HtmlNode) (S : List HtmlNode → String)
    (F : FetchEnv) :
    ∀ (opts : List Json) (i : Nat), opts.all wfAlt = true → i + opts.length ≤ 4 →
      ∃ os, renderOptions P S F i opts = some os
        ∧ os.map RenderedOption.label = (labels.drop i).take opts.length
        ∧ os.map RenderedOption.row_class = opts.map (fun opt =>
            if pyStrIsOne (jgetOpt opt "score_if_chosen") then "answer-row correct"
            else "answer-row")
  | [], i, _, _ => ⟨[], rfl, by simp, by simp⟩
  | opt :: rest, i, hall, hlen => by
      simp only [List.all_cons, Bool.and_eq_true] at hall
      obtain ⟨hopt, hrest⟩ := hall
      have hi4 : i < 4 := by
        simp only [List.length_cons] at hlen
        omega
      have hi : i < labels.length := by simpa [labels] using hi4
      cases opt with
      | null => simp [wfAlt] at hopt
      | bool b => simp [wfAlt] at hopt
      | num n => simp [wfAlt] at hopt
      | str s => simp [wfAlt] at hopt
      | arr xs => simp [wfAlt] at hopt
      | obj fields =>
          cases hans : jlookup fields "answer" with
          | none => simp [wfAlt, hans] at hopt
          | some a =>
              cases hart : pyHtmlArg a with
              | none => simp [wfAlt, hans, hart] at hopt
              | some answer =>
                  obtain ⟨os, hos, hl, hc⟩ :=
                    renderOptions_of_wf P S F rest (i + 1) hrest (by simp at hlen ⊢; omega)
                  refine ⟨⟨labels.getD i "",
                      if pyStrIsOne (jlookup fields "score_if_chosen") then "answer-row correct"
                      else "answer-row",
                      process_html_content P S F answer⟩ :: os, ?_, ?_, ?_⟩
                  · simp [renderOptions, hi, renderOption, hans, hart, hos]
                  · rw [labels_drop i hi4]
                    simp [hl]
                  · simp [hc, jgetOpt]

/-- The question loop succeeds on well-formed questions and produces one
block per question, numbered consecutively, with at most the first four
alternatives rendered. -/
theorem renderQuestions_of_wf (P : String → List HtmlNode) (S : List HtmlNode → String)
    (F : FetchEnv) :
    ∀ (data : List QuestionRecord) (idx : Nat), wfQuestions data = true →
      ∃ blocks, renderQuestions P S F idx data = some blocks
        ∧ blocks.map RenderedQuestion.number = List.range' idx data.length
        ∧ blocks.map (fun b => b.options.map RenderedOption.label)
            = data.map (fun q => labels.take (q.alternatives.take 4).length)
        ∧ blocks.map (fun b => b.options.map RenderedOption.row_class)
            = data.map (fun q => (q.alternatives.take 4).map (fun opt =>
                if pyStrIsOne (jgetOpt opt "score_if_chosen") then "answer-row correct"
                else "answer-row"))
  | [], idx, _ => ⟨[], rfl, by simp, by simp, by simp⟩
  | q :: rest, idx, h => by
      simp only [wfQuestions, List.all_cons, Bool.and_eq_true] at h
      obtain ⟨hq, hrest⟩ := h
      simp only [wfQuestion, Bool.and_eq_true] at hq
      obtain ⟨hbody, halts⟩ := hq
      cases hb : pyHtmlArg q.body with
      | none => simp [hb] at hbody
      | some body =>
          have hlen : 0 + (q.alternatives.take 4).length ≤ 4 := by
            simp [List.length_take]
          obtain ⟨os, hos, hl, hc⟩ := renderOptions_of_wf P S F (q.alternatives.take 4) 0 halts hlen
          obtain ⟨blocks, hbl, hn, hll, hcc⟩ :=
            renderQuestions_of_wf P S F rest (idx + 1) (by simpa [wfQuestions] using hrest)
          refine ⟨⟨idx, process_html_content P S F body, os⟩ :: blocks, ?_, ?_, ?_, ?_⟩
          · simp [renderQuestions, renderQuestion, hb, hos, hbl]
          · simp [hn, List.range'_succ]
          · simp only [List.map_cons, hll]
            simp [hl]
          · simp only [List.map_cons, hcc]
            simp [hc]

/-! ### Claim theorems -/

/-- C1, counterexample: a top-level entry whose `"843"` object is valid (it
has a `body` and a list `alternatives`) but carries no English language
marker is skipped, so a payload with one valid `"843"` object yields zero
records, not one as the claim requires. -/
theorem c1_counterexample :
    fetch_locale_json_from_api (Except.ok (Json.obj
        [("101", Json.obj [("843", Json.obj
            [("body", Json.str "<p>Q</p>"), ("alternatives", Json.arr [])])])]))
      = some []
    ∧ is_valid_question_object (some (Json.obj
        [("body", Json.str "<p>Q</p>"), ("alternatives", Json.arr [])])) = true :=
  ⟨rfl, rfl⟩

/-- C1 (amended): for a mapping payload none of whose entries trips the
language-membership `TypeError`, extraction returns exactly those entries
whose `"843"` object is valid AND marked English (`"843"` in its `language`
list or `"English"` in its `language_names` list), as `{body, alternatives}`
records in the iteration order of the top-level mapping; all other entries
are skipped. -/
theorem c1_english_marker_selection (entries : List (String × Json))
    (h : entries.all (fun kv => !entryMarkerError kv) = true) :
    fetch_locale_json_from_api (Except.ok (Json.obj entries))
      = some (entries.filterMap selectEnglish) := by
  simpa [fetch_locale_json_from_api] using processEntries_eq_filterMap entries h

/-- C1 witness: a payload with one marked-English valid entry, one valid but
unmarked entry and one malformed entry yields exactly the one marked
record. -/
theorem c1_english_marker_selection_witness :
    fetch_locale_json_from_api (Except.ok (Json.obj
        [("1", Json.obj [("843", Json.obj
            [("body", Json.str "<p>A</p>"), ("alternatives", Json.arr []),
             ("language", Json.arr [Json.str "843"])])]),
         ("2", Json.obj [("843", Json.obj
            [("body", Json.str "<p>B</p>"), ("alternatives", Json.arr [])])]),
         ("3", Json.str "junk")]))
      = some [⟨Json.str "<p>A</p>", []⟩] := by
  have h := c1_english_marker_selection
    [("1", Json.obj [("843", Json.obj
        [("body", Json.str "<p>A</p>"), ("alternatives", Json.arr []),
         ("language", Json.arr [Json.str "843"])])]),
     ("2", Json.obj [("843", Json.obj
        [("body", Json.str "<p>B</p>"), ("alternatives", Json.arr [])])]),
     ("3", Json.str "junk")] rfl
  exact h

/-- C2, counterexample: extraction also fails hard on a payload that IS a
mapping obtained from a successful JSON response, when a valid `"843"`
object carries a numeric `language` field: the membership test raises
`TypeError` and the handler returns the failure signal. -/
theorem c2_counterexample :
    fetch_locale_json_from_api (Except.ok (Json.obj
        [("101", Json.obj [("843", Json.obj
            [("body", Json.str "<p>Q</p>"), ("alternatives", Json.arr []),
             ("language", Json.num 5)])])]))
      = none := rfl

/-- C2 (amended): extraction fails hard — `none`, with no partial result —
exactly when a network error, non-success status, non-JSON body, a
top-level payload that is not a mapping, or a language-membership
`TypeError` (a valid `"843"` object whose consulted `language` or
`language_names` field is a number, boolean or `None`) occurs; an empty
mapping yields the empty sequence. -/
theorem c2_failure_characterisation (resp : Except FetchErr Json) :
    (fetch_locale_json_from_api resp = none ↔ respFailCase resp = true)
    ∧ fetch_locale_json_from_api (Except.ok (Json.obj [])) = some [] := by
  constructor
  · cases resp with
    | error e => simp [fetch_locale_json_from_api, respFailCase]
    | ok j =>
        cases j with
        | null => simp [fetch_locale_json_from_api, respFailCase]
        | bool b => simp [fetch_locale_json_from_api, respFailCase]
        | num n => simp [fetch_locale_json_from_api, respFailCase]
        | str s => simp [fetch_locale_json_from_api, respFailCase]
        | arr xs => simp [fetch_locale_json_from_api, respFailCase]
        | obj entries =>
            simpa [fetch_locale_json_from_api, respFailCase] using
              processEntries_eq_none_iff entries
  · rfl

/-- C3: for every image URL whose fetch succeeds, the inliner returns
`data:{content-type};base64,{encoded}` where the content type defaults to
`image/png` when the header is absent and the encoded text base64-decodes
to exactly the response body. -/
theorem c3_data_uri_encoding (F : FetchEnv) (img_url : String) (body : List Nat)
    (ct : Option String) (hF : F img_url = some ⟨body, ct⟩)
    (hbytes : ∀ x ∈ body, x < 256) :
    download_and_encode_image F img_url
        = "data:" ++ ct.getD "image/png" ++ ";base64," ++ b64Encode body
    ∧ b64Decode (b64Encode body) = some body := by
  refine ⟨?_, ?_⟩
  · simp [download_and_encode_image, hF]
  · simpa [b64Decode, b64Encode] using b64DecodeChunks_b64EncodeChunks body hbytes

/-- C3 witness: the bytes of `"Man"` with a `image/jpeg` content type
encode to the data URI suffix `TWFu` and decode back. -/
theorem c3_data_uri_encoding_witness :
    download_and_encode_image (fun _ => some ⟨[77, 97, 110], some "image/jpeg"⟩)
        "http://img.example/x"
      = "data:" ++ (some "image/jpeg").getD "image/png" ++ ";base64," ++ b64Encode [77, 97, 110]
    ∧ b64Decode (b64Encode [77, 97, 110]) = some [77, 97, 110]
    ∧ b64Encode [77, 97, 110] = "TWFu" := by
  have h := c3_data_uri_encoding (fun _ => some ⟨[77, 97, 110], some "image/jpeg"⟩)
    "http://img.example/x" [77, 97, 110] (some "image/jpeg") rfl (by decide)
  exact ⟨h.1, h.2, rfl⟩

/-- C4: for every image URL whose fetch fails, the inliner returns its
input URL unchanged, and in the rewriting pipeline the `src` attribute is
set to the protocol-normalised URL unchanged; the functions are total, so
no exception escapes. -/
theorem c4_failed_fetch_preserves_url (F : FetchEnv) (img_url : String)
    (h : F img_url = none) :
    download_and_encode_image F img_url = img_url
    ∧ ∀ attrs src, getAttr attrs "src" = some src → (src == "") = false →
        (pyStartsWith (fixProtocol src) "http://"
          || pyStartsWith (fixProtocol src) "https://") = true →
        F (fixProtocol src) = none →
        srcStep F attrs = setAttr attrs "src" (fixProtocol src) := by
  constructor
  · simp [download_and_encode_image, h]
  · intro attrs src hga hne hhttp hFfail
    simp [srcStep, hga, hne, hhttp, download_and_encode_image, hFfail]

/-- C4 witness: with every fetch failing, an absolute URL survives the
inliner unchanged and the pipeline writes the normalised URL back. -/
theorem c4_failed_fetch_preserves_url_witness :
    download_and_encode_image (fun _ => none) "https://img.example/a.png"
        = "https://img.example/a.png"
    ∧ srcStep (fun _ => none) [("src", "https://img.example/a.png")]
        = setAttr [("src", "https://img.example/a.png")] "src"
            (fixProtocol "https://img.example/a.png") := by
  have h := c4_failed_fetch_preserves_url (fun _ => none) "https://img.example/a.png" rfl
  exact ⟨h.1, h.2 [("src", "https://img.example/a.png")] "https://img.example/a.png" rfl
    (by decide) (by decide) rfl⟩

/-- C5: for every `img` element, the rewriter applies `srcStep` to its
attributes and recurses into its children; `srcStep` leaves an element with
no `src` untouched, sends a protocol-relative `src` to the inliner under
its `https:`-prefixed form, and leaves any `src` whose normalised form is
not an http(s) URL (data URI, relative path) unchanged. -/
theorem c5_img_src_rewriting (F : FetchEnv) (attrs : List (String × String))
    (cs : List HtmlNode) :
    processNode F (HtmlNode.element "img" attrs cs)
        = HtmlNode.element "img" (srcStep F attrs) (processForest F cs)
    ∧ (getAttr attrs "src" = none → srcStep F attrs = attrs)
    ∧ (∀ src, getAttr attrs "src" = some src → pyStartsWith src "//" = true →
        srcStep F attrs = setAttr attrs "src" (download_and_encode_image F ("https:" ++ src)))
    ∧ (∀ src, getAttr attrs "src" = some src → (src == "") = false →
        (pyStartsWith (fixProtocol src) "http://"
          || pyStartsWith (fixProtocol src) "https://") = true →
        srcStep F attrs = setAttr attrs "src" (download_and_encode_image F (fixProtocol src)))
    ∧ (∀ src, getAttr attrs "src" = some src →
        (pyStartsWith (fixProtocol src) "http://"
          || pyStartsWith (fixProtocol src) "https://") = false →
        srcStep F attrs = attrs) := by
  refine ⟨rfl, ?_, ?_, ?_, ?_⟩
  · intro h; simp [srcStep, h]
  · intro src hga hss
    have hne := pyStartsWith_slashslash_ne_empty src hss
    have hfix : fixProtocol src = "https:" ++ src := by simp [fixProtocol, hss]
    have hhttp : (pyStartsWith (fixProtocol src) "http://"
        || pyStartsWith (fixProtocol src) "https://") = true := by
      rw [hfix]
      simp [pyStartsWith_https_append src hss]
    rw [← hfix]
    simp [srcStep, hga, hne, hhttp]
  · intro src hga hne hhttp
    simp [srcStep, hga, hne, hhttp]
  · intro src hga hhttp
    by_cases he : (src == "") = true
    · simp [srcStep, hga, he]
    · have he' : (src == "") = false := by simpa using he
      simp [srcStep, hga, he', hhttp]

/-- C5 witness: a protocol-relative source on an `img` tag is normalised to
`https:` and handed to the inliner, whose failure writes the normalised URL
back into the attribute list. -/
theorem c5_img_src_rewriting_witness :
    srcStep (fun _ => none) [("width", "10"), ("src", "//img.example/a.png")]
      = setAttr [("width", "10"), ("src", "//img.example/a.png")] "src"
          (download_and_encode_image (fun _ => none) ("https:" ++ "//img.example/a.png"))
    ∧ processNode (fun _ => none)
        (HtmlNode.element "img" [("width", "10"), ("src", "//img.example/a.png")] [])
      = HtmlNode.element "img"
          (srcStep (fun _ => none) [("width", "10"), ("src", "//img.example/a.png")]) [] := by
  have h := c5_img_src_rewriting (fun _ => none)
    [("width", "10"), ("src", "//img.example/a.png")] []
  exact ⟨h.2.2.1 "//img.example/a.png" rfl (by decide), h.1⟩

/-- C6: the metadata fetcher is total and never fails outward: every
failure outcome yields the default `("Test {nid}", "")`, a payload that is
not a non-empty list yields the default, only the first element of a
non-empty list is consulted, and a first element with string title and
description fields yields them stripped. -/
theorem c6_metadata_total_with_defaults (nid : String) :
    (∀ e, fetch_test_title_and_description nid (Except.error e) = (s!"Test {nid}", ""))
    ∧ (∀ j, isNonEmptyList j = false →
        fetch_test_title_and_description nid (Except.ok j) = (s!"Test {nid}", ""))
    ∧ (∀ item rest, fetch_test_title_and_description nid (Except.ok (Json.arr (item :: rest)))
        = fetch_test_title_and_description nid (Except.ok (Json.arr [item])))
    ∧ (∀ t d rest, fetch_test_title_and_description nid
          (Except.ok (Json.arr
            (Json.obj [("title", Json.str t), ("description", Json.str d)] :: rest)))
        = (t.trim, d.trim)) := by
  refine ⟨fun e => rfl, ?_, fun item rest => rfl, fun t d rest => rfl⟩
  intro j hj
  cases j with
  | null => rfl
  | bool b => rfl
  | num n => rfl
  | str s => rfl
  | obj fields => rfl
  | arr xs =>
      cases xs with
      | nil => rfl
      | cons x xs' => simp [isNonEmptyList] at hj

/-- C6 witness: a malformed payload (a bare string) yields the synthesized
default title and empty description. -/
theorem c6_metadata_total_with_defaults_witness :
    fetch_test_title_and_description "123" (Except.ok (Json.str "oops")) = ("Test 123", "") := by
  have h := (c6_metadata_total_with_defaults "123").2.1 (Json.str "oops") rfl
  simpa using h

/-- C7: on well-formed input the renderer emits one question block per
question, numbered from 1 in input order, renders at most the first four
alternatives labelled `A`,`B`,`C`,`D` by position, marks a row with the
`correct` class exactly when `str(score_if_chosen) == "1"`, and the
generated document is the head, the blocks in order, and the footer. -/
theorem c7_rendering_structure (P : String → List HtmlNode) (S : List HtmlNode → String)
    (F : FetchEnv) (data : List QuestionRecord) (h : wfQuestions data = true) :
    ∃ blocks, renderQuestions P S F 1 data = some blocks
      ∧ blocks.map RenderedQuestion.number = List.range' 1 data.length
      ∧ blocks.map (fun b => b.options.map RenderedOption.label)
          = data.map (fun q => labels.take (q.alternatives.take 4).length)
      ∧ blocks.map (fun b => b.options.map RenderedOption.row_class)
          = data.map (fun q => (q.alternatives.take 4).map (fun opt =>
              if pyStrIsOne (jgetOpt opt "score_if_chosen") then "answer-row correct"
              else "answer-row"))
      ∧ ∀ test_title syllabus, generate_html_with_answers P S F data test_title syllabus
          = some (htmlHeader ++ String.join (blocks.map questionBlockHtml) ++ htmlFooter) := by
  obtain ⟨blocks, hbl, hn, hll, hcc⟩ := renderQuestions_of_wf P S F data 1 h
  exact ⟨blocks, hbl, hn, hll, hcc, fun _ _ => by
    simp [generate_html_with_answers, hbl]⟩

/-- C7 witness: one question with five alternatives, exactly one of which
has `score_if_chosen == "1"`, is well formed and renders. -/
theorem c7_rendering_structure_witness :
    wfQuestions [⟨Json.str "<p>Q</p>",
        [Json.obj [("answer", Json.str "<p>A1</p>"), ("score_if_chosen", Json.str "1")],
         Json.obj [("answer", Json.str "<p>A2</p>"), ("score_if_chosen", Json.str "0")],
         Json.obj [("answer", Json.str "<p>A3</p>"), ("score_if_chosen", Json.str "0")],
         Json.obj [("answer", Json.str "<p>A4</p>"), ("score_if_chosen", Json.str "0")],
         Json.obj [("answer", Json.str "<p>A5</p>"), ("score_if_chosen", Json.str "0")]]⟩]
      = true
    ∧ (renderQuestions (fun _ => []) (fun _ => "") (fun _ => none) 1
        [⟨Json.str "<p>Q</p>",
          [Json.obj [("answer", Json.str "<p>A1</p>"), ("score_if_chosen", Json.str "1")],
           Json.obj [("answer", Json.str "<p>A2</p>"), ("score_if_chosen", Json.str "0")],
           Json.obj [("answer", Json.str "<p>A3</p>"), ("score_if_chosen", Json.str "0")],
           Json.obj [("answer", Json.str "<p>A4</p>"), ("score_if_chosen", Json.str "0")],
           Json.obj [("answer", Json.str "<p>A5</p>"), ("score_if_chosen", Json.str "0")]]⟩]).isSome
      = true := by
  refine ⟨rfl, ?_⟩
  obtain ⟨blocks, hbl, _⟩ := c7_rendering_structure (fun _ => []) (fun _ => "") (fun _ => none)
    [⟨Json.str "<p>Q</p>",
      [Json.obj [("answer", Json.str "<p>A1</p>"), ("score_if_chosen", Json.str "1")],
       Json.obj [("answer", Json.str "<p>A2</p>"), ("score_if_chosen", Json.str "0")],
       Json.obj [("answer", Json.str "<p>A3</p>"), ("score_if_chosen", Json.str "0")],
       Json.obj [("answer", Json.str "<p>A4</p>"), ("score_if_chosen", Json.str "0")],
       Json.obj [("answer", Json.str "<p>A5</p>"), ("score_if_chosen", Json.str "0")]]⟩] rfl
  simp [hbl]

/-- C8: rewriting preserves everything except image `src` attributes —
empty input returns the empty string before the parser runs, a forest with
no `img` element is returned unchanged, and in general the rewritten forest
agrees with the input once `img` `src` attributes are erased. -/
theorem c8_rewrite_preserves_non_image_content :
    (∀ (P : String → List HtmlNode) (S : List HtmlNode → String) (F : FetchEnv),
        process_html_content P S F "" = "")
    ∧ (∀ (F : FetchEnv) (f : List HtmlNode), hasImgForest f = false → processForest F f = f)
    ∧ (∀ (F : FetchEnv) (f : List HtmlNode), stripForest (processForest F f) = stripForest f) :=
  ⟨fun _ _ _ => rfl, processForest_of_no_img, stripForest_processForest⟩

/-- C8 witness: a fragment with no images is rewritten to itself. -/
theorem c8_rewrite_preserves_non_image_content_witness :
    hasImgForest [HtmlNode.element "p" [] [HtmlNode.text "hello"]] = false
    ∧ processForest (fun _ => none) [HtmlNode.element "p" [] [HtmlNode.text "hello"]]
        = [HtmlNode.element "p" [] [HtmlNode.text "hello"]] :=
  ⟨rfl, c8_rewrite_preserves_non_image_content.2.1 (fun _ => none)
    [HtmlNode.element "p" [] [HtmlNode.text "hello"]] rfl⟩

/-- C9: beyond validity of the `"843"` object, an entry is appended only
when the language marker holds: a valid entry whose marker test yields
`false` is silently skipped (so the result can have fewer records than the
valid-object count), and a valid entry whose marker test yields `true` is
appended. -/
theorem c9_language_marker_filter (k : String) (byLang fields rest :
    List (String × Json))
    (h843 : jlookup byLang "843" = some (Json.obj fields))
    (hvalid : is_valid_question_object (some (Json.obj fields)) = true) :
    (markerCheck fields = some false →
      processEntries ((k, Json.obj byLang) :: rest) = processEntries rest)
    ∧ (markerCheck fields = some true →
      processEntries ((k, Json.obj byLang) :: rest)
        = (processEntries rest).map (fun tail => extractRecord fields :: tail)) := by
  constructor
  · intro hm; simp [processEntries, h843, hvalid, hm]
  · intro hm; simp [processEntries, h843, hvalid, hm]

/-- C9 witness: a valid `"843"` object with neither language marker is
skipped, giving zero records. -/
theorem c9_language_marker_filter_witness :
    markerCheck [("body", Json.str "b"), ("alternatives", Json.arr [])] = some false
    ∧ processEntries [("7", Json.obj [("843", Json.obj
        [("body", Json.str "b"), ("alternatives", Json.arr [])])])] = some [] := by
  refine ⟨rfl, ?_⟩
  have h := (c9_language_marker_filter "7"
    [("843", Json.obj [("body", Json.str "b"), ("alternatives", Json.arr [])])]
    [("body", Json.str "b"), ("alternatives", Json.arr [])] [] rfl rfl).1 rfl
  simpa [processEntries] using h

/-- C10: the renderer is partial — an alternative that is a dict without
the `answer` key makes it raise (modelled `none`) — and the extractor does
not validate individual alternatives, so a payload that extracts
successfully can hand the renderer exactly such an alternative. -/
theorem c10_renderer_partiality :
    fetch_locale_json_from_api (Except.ok (Json.obj
        [("55", Json.obj [("843", Json.obj
            [("body", Json.str "<p>Q</p>"),
             ("alternatives", Json.arr [Json.obj []]),
             ("language", Json.arr [Json.str "843"])])])]))
      = some [⟨Json.str "<p>Q</p>", [Json.obj []]⟩]
    ∧ ∀ (P : String → List HtmlNode) (S : List HtmlNode → String) (F : FetchEnv),
        renderQuestions P S F 1 [⟨Json.str "<p>Q</p>", [Json.obj []]⟩] = none := by
  exact ⟨rfl, fun P S F => rfl⟩
